import Mathlib

/-!
Verification development for the NetShaper ARP core
(`src/native/network/arp.cpp`, class `ArpManager`).

The C++ code is shallowly embedded: bytes are `Nat` values below 256, wire
frames are `List Nat` of length 42, strings are Lean `String`s, and the
manager's mutable fields form the record `ArpState`.  Platform effects are
made explicit: each call to `pcap_sendpacket` consumes one `Bool` from an
oracle list (`true` models a return value of 0), and reads of the OS
neighbor table (`GetIpNetTable`) take the table snapshot as an argument.
Wall-clock time (the `avg_*_time_ms` running averages, measured with a
microsecond clock) is not modelled; the four monotonic counters of
`PerformanceStats` are.
-/

/-! ## Character and number formatting helpers -/

/-- Lowercase hexadecimal digit, as produced by `std::hex` stream output
in `ArpManager::macToString`. -/
def hexDigitChar : Nat → Char
  | 0 => '0' | 1 => '1' | 2 => '2' | 3 => '3' | 4 => '4'
  | 5 => '5' | 6 => '6' | 7 => '7' | 8 => '8' | 9 => '9'
  | 10 => 'a' | 11 => 'b' | 12 => 'c' | 13 => 'd' | 14 => 'e'
  | 15 => 'f' | _ => '*'

/-- Decimal digit character (low decimal digit of `n`). -/
def decDigitChar (n : Nat) : Char := hexDigitChar (n % 10)

/-- Decimal representation of a byte value, as produced by `std::to_string`
on a promoted `uint8_t` (the argument is below 256, hence at most three
digits). -/
def decChars (n : Nat) : List Char :=
  if n < 10 then [decDigitChar n]
  else if n < 100 then [decDigitChar (n / 10), decDigitChar n]
  else [decDigitChar (n / 100), decDigitChar (n / 10), decDigitChar n]

/-- Two-character, zero-padded lowercase hex rendering of one MAC byte:
`std::hex << std::setw(2) << std::setfill('0')` in `macToString`. -/
def macByteChars (b : Nat) : List Char :=
  [hexDigitChar (b / 16 % 16), hexDigitChar (b % 16)]

/-- Character list of `ArpManager::macToString`: the six bytes in hex,
separated by `:`. -/
def macChars : List Nat → List Char
  | [] => []
  | [b] => macByteChars b
  | b :: rest => macByteChars b ++ ':' :: macChars rest

/-- `ArpManager::macToString` on a 6-byte MAC. -/
def macToString (m : List Nat) : String := ⟨macChars m⟩

/-! ## `std::stoi(..., nullptr, 16)` as used by `stringToMac`

`stoi` has `strtol` semantics: skip whitespace, optional sign, optional
`0x`/`0X` prefix, then a maximal run of hex digits; it fails only when no
digit is converted ( `stringToMac` catches the exception).  The inputs here
are two-character substrings, so `int` overflow cannot occur. -/

/-- Whitespace characters skipped by `strtol`. -/
def isSpaceC (c : Char) : Bool :=
  c = ' ' || c = '\t' || c = '\n' || c = '\x0b' || c = '\x0c' || c = '\r'

/-- Value of one hexadecimal digit character, if any. -/
def hexVal (c : Char) : Option Nat :=
  if 48 ≤ c.toNat ∧ c.toNat ≤ 57 then some (c.toNat - 48)
  else if 97 ≤ c.toNat ∧ c.toNat ≤ 102 then some (c.toNat - 87)
  else if 65 ≤ c.toNat ∧ c.toNat ≤ 70 then some (c.toNat - 55)
  else none

/-- Maximal leading run of hex digits, as values. -/
def hexSpan : List Char → List Nat × List Char
  | [] => ([], [])
  | c :: rest =>
    match hexVal c with
    | some v =>
      let p := hexSpan rest
      (v :: p.1, p.2)
    | none => ([], c :: rest)

/-- Value of a maximal hex-digit run; `none` when no digit was converted. -/
def hexDigitsVal (cs : List Char) : Option Nat :=
  match hexSpan cs with
  | ([], _) => none
  | (ds, _) => some (ds.foldl (fun a d => 16 * a + d) 0)

/-- Body of the base-16 `strtol` parse after sign handling.  On `0x`
followed by no hex digit, `strtol` converts just the leading `0`. -/
def parseHexBody (cs : List Char) : Option Nat :=
  match cs with
  | '0' :: x :: r =>
    if x = 'x' ∨ x = 'X' then
      match hexDigitsVal r with
      | some n => some n
      | none => some 0
    else hexDigitsVal cs
  | _ => hexDigitsVal cs

/-- `std::stoi(s, nullptr, 16)` on a character list; `none` models the
`std::invalid_argument` exception. -/
def stoi16 (cs : List Char) : Option Int :=
  match cs.dropWhile isSpaceC with
  | '-' :: r => (parseHexBody r).map fun n => -(n : Int)
  | '+' :: r => (parseHexBody r).map fun n => (n : Int)
  | cs1 => (parseHexBody cs1).map fun n => (n : Int)

/-- One byte of `ArpManager::stringToMac`:
`static_cast<uint8_t>(std::stoi(mac_str.substr(i * 3, 2), nullptr, 16))`.
The cast truncates the `int` modulo 256 (two's complement). -/
def parseMacByte (cs : List Char) (i : Nat) : Option Nat :=
  (stoi16 ((cs.drop (3 * i)).take 2)).map fun v => (v % 256).toNat

/-- `ArpManager::stringToMac`: requires length exactly 17, then parses the
six two-character groups at offsets 0, 3, …, 15 (separators are not
inspected by the source). -/
def stringToMac (s : String) : Option (List Nat) :=
  if s.length = 17 then
    match parseMacByte s.data 0, parseMacByte s.data 1, parseMacByte s.data 2,
          parseMacByte s.data 3, parseMacByte s.data 4, parseMacByte s.data 5 with
    | some b0, some b1, some b2, some b3, some b4, some b5 =>
      some [b0, b1, b2, b3, b4, b5]
    | _, _, _, _, _, _ => none
  else none

/-! ## IPv4 text codec

`ArpManager::stringToIp` delegates to the platform's `inet_pton(AF_INET, …)`.
That routine is not part of this repository; it is modelled from its
documented strict behavior (Windows `InetPton` / POSIX): exactly four
decimal components separated by single dots, each 1–3 digits, value at most
255, with no leading zeros, and nothing before or after.  On success the
four bytes land in memory in network order, and the `memcpy` in
`stringToIp` preserves that order. -/

/-- Decimal digit test. -/
def isDigitC (c : Char) : Bool := 48 ≤ c.toNat && c.toNat ≤ 57

/-- Maximal leading run of decimal digit characters. -/
def spanDigits : List Char → List Char × List Char
  | [] => ([], [])
  | c :: rest =>
    if isDigitC c then
      let p := spanDigits rest
      (c :: p.1, p.2)
    else ([], c :: rest)

/-- Value of a run of decimal digit characters. -/
def digitsVal (ds : List Char) : Nat :=
  ds.foldl (fun a c => 10 * a + (c.toNat - 48)) 0

/-- Acceptance test for one dotted-quad component: 1–3 digits, no leading
zero (a lone `0` is allowed), value at most 255. -/
def octetOk (ds : List Char) : Bool :=
  match ds with
  | [] => false
  | [_] => true
  | c :: rest => c != '0' && decide (rest.length ≤ 2) && decide (digitsVal ds ≤ 255)

/-- Parse one dotted-quad component off the front of the input. -/
def parseOctet (cs : List Char) : Option (Nat × List Char) :=
  let p := spanDigits cs
  if octetOk p.1 then some (digitsVal p.1, p.2) else none

/-- Consume the dot separating two components. -/
def expectDot : List Char → Option (List Char)
  | c :: r => if c = '.' then some r else none
  | [] => none

/-- Strict dotted-quad parser (the model of `inet_pton(AF_INET, …)`);
returns the four bytes in network order. -/
def parseIpv4 (cs : List Char) : Option (List Nat) :=
  match parseOctet cs with
  | none => none
  | some (a, r1) =>
    match expectDot r1 with
    | none => none
    | some r1' =>
      match parseOctet r1' with
      | none => none
      | some (b, r2) =>
        match expectDot r2 with
        | none => none
        | some r2' =>
          match parseOctet r2' with
          | none => none
          | some (c, r3) =>
            match expectDot r3 with
            | none => none
            | some r3' =>
              match parseOctet r3' with
              | none => none
              | some (d, r4) =>
                if r4 = [] then some [a, b, c, d] else none

/-- `ArpManager::stringToIp`. -/
def stringToIp (s : String) : Option (List Nat) := parseIpv4 s.data

/-- `ArpManager::ipToString`:
`std::to_string(ip[0]) + "." + … + std::to_string(ip[3])` on the four
bytes. -/
def ipToString : List Nat → String
  | [a, b, c, d] =>
    (⟨decChars a⟩ : String) ++ "." ++ (⟨decChars b⟩ : String) ++ "." ++
      (⟨decChars c⟩ : String) ++ "." ++ (⟨decChars d⟩ : String)
  | _ => ""

/-! ## Wire frames

`ArpFrame` is Ethernet (dst 6, src 6, ethertype 2) followed by ARP
(htype 2, ptype 2, hlen 1, plen 1, op 2, sender MAC 6, sender IP 4,
target MAC 6, target IP 4) — 42 bytes, multi-byte fields big-endian via
`htons`. -/

/-- The broadcast MAC `ff:ff:ff:ff:ff:ff`. -/
def broadcastMac : List Nat := [255, 255, 255, 255, 255, 255]

/-- Six zero bytes (unknown target MAC in a request). -/
def zeroMac6 : List Nat := [0, 0, 0, 0, 0, 0]

/-- Byte layout of a 42-byte Ethernet+ARP frame as assembled by the source
(ethertype `0x0806`, htype 1, ptype `0x0800`, hlen 6, plen 4, `op` 1 or 2). -/
def arpFrameBytes (ethDst ethSrc senderMac senderIp targetMac targetIp : List Nat)
    (op : Nat) : List Nat :=
  ethDst ++ ethSrc ++ [8, 6] ++ [0, 1, 8, 0, 6, 4, 0, op] ++
    senderMac ++ senderIp ++ targetMac ++ targetIp

/-- The request frame built by `ArpManager::sendArpRequest`: broadcast
destination, zeroed target MAC, op 1. -/
def buildArpRequestFrame (lmac lip tip : List Nat) : List Nat :=
  arpFrameBytes broadcastMac lmac lmac lip zeroMac6 tip 1

/-- The spoofed-reply frame built by `ArpManager::poisonArpCache`:
unicast to the victim, op 2, sender = (our MAC, spoofed IP),
target = (victim MAC, victim IP). -/
def buildSpoofFrame (vmac omac sip vip : List Nat) : List Nat :=
  arpFrameBytes vmac omac omac sip vmac vip 2

/-! ## Manager state

The mutable fields of `ArpManager`.  `pcap_handle` is `some h` for an open
capture handle (`h` an abstract handle identity) and `none` for the null
pointer.  The pre-allocated `arp_buffer` is write-before-read on every send
and therefore needs no state. -/

/-- The four monotonic counters of `ArpManager::PerformanceStats`.  The two
running averages (`avg_send_time_ms`, `avg_receive_time_ms`) are driven by
a real-time microsecond clock and are not modelled. -/
structure PerfStats where
  packets_sent : Nat
  packets_received : Nat
  send_errors : Nat
  receive_errors : Nat
deriving DecidableEq, Repr

/-- `NetworkInfo` (the `NetworkTopology` of the specification). -/
structure NetworkInfo where
  local_ip : String
  subnet_mask : String
  gateway_ip : String
  gateway_mac : String
  interface_name : String
  interface_mac : String
  subnet_cidr : Nat
  is_valid : Bool
deriving DecidableEq, Repr

/-- One record of the poisoning-target list. -/
structure PoisoningTarget where
  ip : String
  mac : String
  is_active : Bool
deriving DecidableEq, Repr

/-- The mutable state of an `ArpManager`. -/
structure ArpState where
  pcap_handle : Option Nat
  network_info : NetworkInfo
  is_initialized : Bool
  perf : PerfStats
  last_error : String
  poisoning_targets : List PoisoningTarget
  poisoning_active : Bool
deriving DecidableEq, Repr

/-- Zero-initialized `NetworkInfo` (`NetworkInfo info = {}`). -/
def emptyNetworkInfo : NetworkInfo :=
  { local_ip := "", subnet_mask := "", gateway_ip := "", gateway_mac := ""
    interface_name := "", interface_mac := "", subnet_cidr := 0, is_valid := false }

/-- State after the `ArpManager` constructor (`pcap_handle(nullptr)`,
`is_initialized(false)`, `poisoning_active(false)`, zeroed stats). -/
def arpInit : ArpState :=
  { pcap_handle := none, network_info := emptyNetworkInfo, is_initialized := false
    perf := ⟨0, 0, 0, 0⟩, last_error := "", poisoning_targets := [], poisoning_active := false }

/-- Result of one operation: boolean return, new state, the frames passed to
`pcap_sendpacket` in call order, the unconsumed send oracle, and a flag set
when the operation reaches undefined behavior (a capture-library call
through the null handle). -/
structure OpResult where
  ok : Bool
  state : ArpState
  sent : List (List Nat)
  sends : List Bool
  ub : Bool
deriving DecidableEq, Repr

/-- Placeholder for the diagnostic string returned by `pcap_geterr` on an
open handle. -/
def pcapGetErr : String := "<pcap diagnostic>"

/-- `ArpManager::updatePerformanceStats`, restricted to the counters (the
running-average update depends on the real-time clock). -/
def updatePerformanceStats (is_send success : Bool) (p : PerfStats) : PerfStats :=
  if is_send then
    { p with packets_sent := p.packets_sent + 1
             send_errors := if success then p.send_errors else p.send_errors + 1 }
  else
    { p with packets_received := p.packets_received + 1
             receive_errors := if success then p.receive_errors else p.receive_errors + 1 }

/-! ## Send operations -/

/-- `ArpManager::sendArpRequest`.  Note the error path: when no handle is
open the source still evaluates
`setError("Failed to send ARP request: " + std::string(pcap_geterr(pcap_handle)))`
with `pcap_handle == nullptr`, which is undefined behavior (flagged by
`ub`); the `last_error` value recorded for that branch is the overwrite the
statement attempts. -/
def sendArpRequest (target_ip : String) (s : ArpState) (sr : List Bool) : OpResult :=
  if s.is_initialized = false then
    { ok := false, state := { s with last_error := "ARP Manager not initialized" }
      sent := [], sends := sr, ub := false }
  else
    match stringToIp target_ip with
    | none =>
      { ok := false
        state := { s with last_error := "Invalid target IP address: " ++ target_ip }
        sent := [], sends := sr, ub := false }
    | some tip =>
      match stringToIp s.network_info.local_ip, stringToMac s.network_info.interface_mac with
      | some lip, some lmac =>
        let frame := buildArpRequestFrame lmac lip tip
        match s.pcap_handle with
        | some _ =>
          let r := sr.headD false
          let s1 := { s with perf := updatePerformanceStats true r s.perf }
          if r then
            { ok := true, state := s1, sent := [frame], sends := sr.tail, ub := false }
          else
            { ok := false
              state := { s1 with last_error := "Failed to send ARP request: " ++ pcapGetErr }
              sent := [frame], sends := sr.tail, ub := false }
        | none =>
          let s1 := { s with
            last_error := "Pcap handle not available - ensure proper adapter initialization" }
          let s2 := { s1 with perf := updatePerformanceStats true false s1.perf }
          { ok := false
            state := { s2 with last_error := "Failed to send ARP request: " ++ pcapGetErr }
            sent := [], sends := sr, ub := true }
      | _, _ =>
        { ok := false, state := { s with last_error := "Invalid local network configuration" }
          sent := [], sends := sr, ub := false }

/-- `ArpManager::sendArpReply`.  Unlike `sendArpRequest`, its failure path
guards the diagnostic with `!success && pcap_handle`, so the null-handle
case keeps the "Pcap handle not available" error and reaches no undefined
behavior. -/
def sendArpReply (sender_ip target_ip sender_mac target_mac : String)
    (s : ArpState) (sr : List Bool) : OpResult :=
  if s.is_initialized = false then
    { ok := false, state := { s with last_error := "ARP Manager not initialized" }
      sent := [], sends := sr, ub := false }
  else
    match stringToIp sender_ip with
    | none =>
      { ok := false, state := { s with last_error := "Invalid parameters for ARP reply" }
        sent := [], sends := sr, ub := false }
    | some sip =>
      match stringToIp target_ip with
      | none =>
        { ok := false, state := { s with last_error := "Invalid parameters for ARP reply" }
          sent := [], sends := sr, ub := false }
      | some tip =>
        match stringToMac sender_mac with
        | none =>
          { ok := false, state := { s with last_error := "Invalid parameters for ARP reply" }
            sent := [], sends := sr, ub := false }
        | some smac =>
          match stringToMac target_mac with
          | none =>
            { ok := false, state := { s with last_error := "Invalid parameters for ARP reply" }
              sent := [], sends := sr, ub := false }
          | some tmac =>
            let frame := arpFrameBytes tmac smac smac sip tmac tip 2
            match s.pcap_handle with
            | some _ =>
              let r := sr.headD false
              let s1 := { s with perf := updatePerformanceStats true r s.perf }
              if r then
                { ok := true, state := s1, sent := [frame], sends := sr.tail, ub := false }
              else
                { ok := false
                  state := { s1 with last_error := "Failed to send ARP reply: " ++ pcapGetErr }
                  sent := [frame], sends := sr.tail, ub := false }
            | none =>
              let s1 := { s with
                last_error := "Pcap handle not available - ensure proper adapter initialization" }
              { ok := false, state := { s1 with perf := updatePerformanceStats true false s1.perf }
                sent := [], sends := sr, ub := false }

/-- `ArpManager::poisonArpCache`: one spoofed (or restoring) unsolicited
reply, unicast to the victim. -/
def poisonArpCache (victim_ip victim_mac spoof_ip our_mac : String)
    (s : ArpState) (sr : List Bool) : OpResult :=
  if s.is_initialized = false ∨ s.pcap_handle = none then
    { ok := false
      state := { s with last_error := "ARP Manager not properly initialized for poisoning operations" }
      sent := [], sends := sr, ub := false }
  else
    match stringToIp victim_ip with
    | none =>
      { ok := false, state := { s with last_error := "Invalid parameters for ARP poisoning" }
        sent := [], sends := sr, ub := false }
    | some vip =>
      match stringToIp spoof_ip with
      | none =>
        { ok := false, state := { s with last_error := "Invalid parameters for ARP poisoning" }
          sent := [], sends := sr, ub := false }
      | some sip =>
        match stringToMac victim_mac with
        | none =>
          { ok := false, state := { s with last_error := "Invalid parameters for ARP poisoning" }
            sent := [], sends := sr, ub := false }
        | some vmac =>
          match stringToMac our_mac with
          | none =>
            { ok := false, state := { s with last_error := "Invalid parameters for ARP poisoning" }
              sent := [], sends := sr, ub := false }
          | some omac =>
            let frame := buildSpoofFrame vmac omac sip vip
            let r := sr.headD false
            let s1 := { s with perf := updatePerformanceStats true r s.perf }
            if r then
              { ok := true, state := s1, sent := [frame], sends := sr.tail, ub := false }
            else
              { ok := false
                state := { s1 with
                  last_error := "Failed to send ARP poisoning packet: " ++ pcapGetErr }
                sent := [frame], sends := sr.tail, ub := false }

/-! ## Gateway MAC discovery

`GetIpNetTable` snapshots are passed explicitly: entries are pairs of IPv4
bytes (the `dwAddr` value, compared bytewise, which matches the source's
network-order `uint32` comparison) and MAC bytes.  `tbl1` is the snapshot
at the first read, `tbl2` the one after the ARP request and the 500 ms
wait. -/

/-- Linear search of a neighbor-table snapshot (first matching entry). -/
def arpLookup (tbl : List (List Nat × List Nat)) (ip : List Nat) : Option (List Nat) :=
  match tbl with
  | [] => none
  | (a, m) :: rest => if a = ip then some m else arpLookup rest ip

/-- `ArpManager::discoverGatewayMac`: neighbor-table lookup, then — only if
a capture handle exists and the broadcast request was sent successfully —
a second lookup; `""` on failure.  Returns the discovered string together
with the state, frames and remaining oracle of the embedded
`sendArpRequest`. -/
def discoverGatewayMac (gateway_ip : String) (tbl1 tbl2 : List (List Nat × List Nat))
    (s : ArpState) (sr : List Bool) : String × ArpState × List (List Nat) × List Bool :=
  match stringToIp gateway_ip with
  | none => ("", s, [], sr)
  | some gip =>
    match arpLookup tbl1 gip with
    | some m => (macToString m, s, [], sr)
    | none =>
      match s.pcap_handle with
      | none => ("", s, [], sr)
      | some _ =>
        let r := sendArpRequest gateway_ip s sr
        if r.ok then
          match arpLookup tbl2 gip with
          | some m => (macToString m, r.state, r.sent, r.sends)
          | none => ("", r.state, r.sent, r.sends)
        else ("", r.state, r.sent, r.sends)

/-- `ArpManager::refreshGatewayMac`: on a non-empty, non-zero discovery
result, update the topology's gateway MAC in place. -/
def refreshGatewayMac (tbl1 tbl2 : List (List Nat × List Nat))
    (s : ArpState) (sr : List Bool) : OpResult :=
  if s.is_initialized = false ∨ s.network_info.gateway_ip = "" then
    { ok := false, state := s, sent := [], sends := sr, ub := false }
  else
    let d := discoverGatewayMac s.network_info.gateway_ip tbl1 tbl2 s sr
    if d.1 ≠ "" ∧ d.1 ≠ "00:00:00:00:00:00" then
      { ok := true
        state := { d.2.1 with network_info := { d.2.1.network_info with gateway_mac := d.1 } }
        sent := d.2.2.1, sends := d.2.2.2, ub := false }
    else
      { ok := false, state := d.2.1, sent := d.2.2.1, sends := d.2.2.2, ub := false }

/-! ## Poisoning controller -/

/-- `ArpManager::startArpPoisoning`.  Order as in the source: init/handle
check, gateway-MAC refresh when unresolved, already-active check, append,
then the two spoofs combined with the C++ short-circuiting `&&`. -/
def startArpPoisoning (target_ip target_mac : String)
    (tbl1 tbl2 : List (List Nat × List Nat)) (s : ArpState) (sr : List Bool) : OpResult :=
  if s.is_initialized = false ∨ s.pcap_handle = none then
    { ok := false
      state := { s with last_error := "ARP Manager not properly initialized for poisoning operations" }
      sent := [], sends := sr, ub := false }
  else
    let r0 :=
      if s.network_info.gateway_mac = "" ∨ s.network_info.gateway_mac = "00:00:00:00:00:00" then
        refreshGatewayMac tbl1 tbl2 s sr
      else { ok := true, state := s, sent := [], sends := sr, ub := false }
    let s0 := r0.state
    if s0.poisoning_targets.any (fun t => t.ip == target_ip && t.is_active) then
      { ok := true, state := s0, sent := r0.sent, sends := r0.sends, ub := false }
    else
      let s1 := { s0 with
        poisoning_targets :=
          s0.poisoning_targets ++ [{ ip := target_ip, mac := target_mac, is_active := true }]
        poisoning_active := true }
      let ra := poisonArpCache target_ip target_mac
        s1.network_info.gateway_ip s1.network_info.interface_mac s1 r0.sends
      if ra.ok then
        let rb := poisonArpCache s1.network_info.gateway_ip s1.network_info.gateway_mac
          target_ip s1.network_info.interface_mac ra.state ra.sends
        { ok := rb.ok, state := rb.state, sent := r0.sent ++ ra.sent ++ rb.sent
          sends := rb.sends, ub := false }
      else
        { ok := false, state := ra.state, sent := r0.sent ++ ra.sent
          sends := ra.sends, ub := false }

/-- The search-and-deactivate loop of `stopArpPoisoning`: deactivate the
first record that matches the IP and is active; return the updated list and
the matched record (its pre-deactivation value, whose `mac` the restoration
frames use). -/
def stopLoop : List PoisoningTarget → String → List PoisoningTarget × Option PoisoningTarget
  | [], _ => ([], none)
  | t :: rest, ip =>
    if t.ip = ip ∧ t.is_active = true then ({ t with is_active := false } :: rest, some t)
    else
      let p := stopLoop rest ip
      (t :: p.1, p.2)

/-- `ArpManager::stopArpPoisoning`: deactivate, send the two restoration
frames (results discarded), then clear `poisoning_active` when no record
remains active; `false` when no active record matched. -/
def stopArpPoisoning (target_ip : String) (s : ArpState) (sr : List Bool) : OpResult :=
  match stopLoop s.poisoning_targets target_ip with
  | (ts, none) =>
    let s1 := { s with poisoning_targets := ts }
    let s2 := if s1.poisoning_targets.any (fun t => t.is_active) then s1
              else { s1 with poisoning_active := false }
    { ok := false, state := s2, sent := [], sends := sr, ub := false }
  | (ts, some t) =>
    let s1 := { s with poisoning_targets := ts }
    let ra := poisonArpCache target_ip t.mac
      s1.network_info.gateway_ip s1.network_info.gateway_mac s1 sr
    let rb := poisonArpCache s1.network_info.gateway_ip s1.network_info.gateway_mac
      target_ip t.mac ra.state ra.sends
    let s2 := rb.state
    let s3 := if s2.poisoning_targets.any (fun t => t.is_active) then s2
              else { s2 with poisoning_active := false }
    { ok := true, state := s3, sent := ra.sent ++ rb.sent, sends := rb.sends, ub := false }

/-! ## Topology resolver (primary tier)

`discoverNetworkTopology` is embedded relative to the enumerated adapter
list and to the outcome of the (effectful) `discoverGatewayMac` call,
abstracted as a function of the gateway address. -/

/-- `NetworkAdapter` as produced by `enumerateAdapters` (string fields the
claims use). -/
structure NetworkAdapter where
  name : String
  pcap_name : String
  description : String
  friendly_name : String
  mac_address : String
  ip_address : String
  subnet_mask : String
  gateway : String
  is_active : Bool
  is_wireless : Bool
deriving DecidableEq, Repr

/-- `in_addr.s_addr` read as a host-order `uint32_t`: the four bytes are in
memory in network order, and the Windows targets (x86/x64/ARM64) are
little-endian, so the first byte is the least significant. -/
def inAddrLE : List Nat → Nat
  | [a, b, c, d] => a + 256 * b + 65536 * c + 16777216 * d
  | _ => 0

/-- The CIDR loop of `discoverNetworkTopology`:
`while (mask & 0x80000000) { info.subnet_cidr++; mask <<= 1; }` on a
32-bit value.  Shifted-in bits are zero, so 32 iterations are exhaustive. -/
def cidrLoop : Nat → Nat → Nat
  | 0, _ => 0
  | fuel + 1, m =>
    if m / 2147483648 % 2 = 1 then cidrLoop fuel (m * 2 % 4294967296) + 1 else 0

/-- The `subnet_cidr` computation of `discoverNetworkTopology` on the
parsed mask bytes. -/
def computeSubnetCidr (maskBytes : List Nat) : Nat := cidrLoop 32 (inAddrLE maskBytes)

/-- Big-endian (network-order) 32-bit value of the four mask bytes. -/
def beWord : List Nat → Nat
  | [a, b, c, d] => 16777216 * a + 65536 * b + 256 * c + d
  | _ => 0

/-- Spec-side prefix length, stated from the specification's words for
comparison: the number of leading one-bits of the mask in network byte
order (first octet's most significant bit first). -/
def specPrefixLen (maskBytes : List Nat) : Nat := cidrLoop 32 (beWord maskBytes)

/-- `ArpManager::discoverNetworkTopology` (primary resolver).  `gwMac`
stands for the effectful `discoverGatewayMac` call.  When the subnet mask
is not a dotted quad the source reads an uninitialized `in_addr`
(undefined); that case is mapped to mask value 0 and is outside every
claim, which all assume a dotted-quad mask. -/
def discoverNetworkTopology (adapters : List NetworkAdapter) (adapter_name : String)
    (gwMac : String → String) : NetworkInfo :=
  match adapters.find? (fun a => a.name == adapter_name) with
  | none => emptyNetworkInfo
  | some a =>
    { local_ip := a.ip_address
      subnet_mask := a.subnet_mask
      gateway_ip := a.gateway
      gateway_mac :=
        if a.gateway ≠ "" ∧ a.gateway ≠ "0.0.0.0" then gwMac a.gateway else ""
      interface_name := a.name
      interface_mac := a.mac_address
      subnet_cidr :=
        match stringToIp a.subnet_mask with
        | some mb => computeSubnetCidr mb
        | none => 0
      is_valid := a.ip_address != "" && a.gateway != "" }

/-! ## Initialization, cleanup and the capture-handle lifecycle

`initialize`/`cleanup` are embedded with an explicit event trace of
`pcap_open_live`/`pcap_close` calls.  The parts of `initialize` that do not
touch the handle (adapter-name mapping, the gateway-MAC retry loop, debug
logging) are summarized by the environment below; `validate_ok` is the
outcome of `validateAdapter`, `open_result` the handle produced by
`pcap_open_live` (`none` = open failure, which is non-fatal), `topo` and
`alt` the results of the two topology resolvers. -/

/-- A capture-handle lifecycle event. -/
inductive HEvent where
  | opened : Nat → HEvent
  | closed : Nat → HEvent
deriving DecidableEq, Repr

/-- Environment of one `initialize` call. -/
structure InitEnv where
  validate_ok : Bool
  open_result : Option Nat
  topo : NetworkInfo
  alt : NetworkInfo
deriving DecidableEq, Repr

/-- `ArpManager::cleanup`: close the handle if one is open, null it, clear
`is_initialized`. -/
def cleanupT (s : ArpState) : ArpState × List HEvent :=
  match s.pcap_handle with
  | some h => ({ s with pcap_handle := none, is_initialized := false }, [HEvent.closed h])
  | none => ({ s with is_initialized := false }, [])

/-- `ArpManager::initialize`: entry cleanup when already initialized,
adapter validation, `pcap_open_live` (failure non-fatal), topology
discovery with fallback (both failing aborts via `cleanup`). -/
def initArp (env : InitEnv) (s : ArpState) : Bool × ArpState × List HEvent :=
  let p0 := if s.is_initialized = true then cleanupT s else (s, [])
  let s0 := p0.1
  if env.validate_ok = false then
    (false, { s0 with last_error := "Invalid adapter name" }, p0.2)
  else
    let p1 :=
      match env.open_result with
      | some h => ({ s0 with pcap_handle := some h }, p0.2 ++ [HEvent.opened h])
      | none => ({ s0 with pcap_handle := none }, p0.2)
    let s1 := p1.1
    if env.topo.is_valid = true then
      (true, { s1 with network_info := env.topo, is_initialized := true }, p1.2)
    else if env.alt.is_valid = true then
      (true, { s1 with network_info := env.alt, is_initialized := true }, p1.2)
    else
      let p2 := cleanupT { s1 with
        network_info := env.alt
        last_error := "Failed to discover network topology using any method" }
      (false, p2.1, p1.2 ++ p2.2)

/-- One step of an initialize/cleanup call sequence. -/
inductive InitOp where
  | doInit : InitEnv → InitOp
  | doCleanup : InitOp

/-- Run a sequence of initialize/cleanup calls, accumulating the
handle-event trace. -/
def runInitOps : List InitOp → ArpState × List HEvent → ArpState × List HEvent
  | [], acc => acc
  | InitOp.doInit env :: rest, (s, log) =>
    let r := initArp env s
    runInitOps rest (r.2.1, log ++ r.2.2)
  | InitOp.doCleanup :: rest, (s, log) =>
    let r := cleanupT s
    runInitOps rest (r.1, log ++ r.2)

/-- Handle-trace automaton: starting from the currently held handle,
accept the trace iff an open happens only with no handle held and a close
only of the currently held handle (hence never twice); return the handle
held at the end. -/
def runLog : List HEvent → Option Nat → Option (Option Nat)
  | [], h => some h
  | HEvent.opened x :: rest, none => runLog rest (some x)
  | HEvent.opened _ :: _, some _ => none
  | HEvent.closed x :: rest, some h => if x = h then runLog rest none else none
  | HEvent.closed _ :: _, none => none

/-! ## Concrete fixtures

States used by the concrete scenarios of the claims (S1, S3 of the
specification).  `readyState` is an initialized manager with an open
capture handle and a fully resolved topology. -/

/-- Resolved topology of the specification's scenarios S1/S3. -/
def topoSample : NetworkInfo :=
  { local_ip := "192.168.1.10", subnet_mask := "255.255.255.0"
    gateway_ip := "192.168.1.1", gateway_mac := "11:22:33:44:55:66"
    interface_name := "ETH0", interface_mac := "aa:bb:cc:dd:ee:ff"
    subnet_cidr := 24, is_valid := true }

/-- Initialized manager, open handle, resolved topology, no targets. -/
def readyState : ArpState :=
  { pcap_handle := some 0, network_info := topoSample, is_initialized := true
    perf := ⟨0, 0, 0, 0⟩, last_error := "", poisoning_targets := []
    poisoning_active := false }

/-- Initialized manager whose gateway MAC is still unresolved and that has
one active poisoning record. -/
def unresolvedGwState : ArpState :=
  { readyState with
    network_info := { topoSample with gateway_mac := "" }
    poisoning_targets := [{ ip := "192.168.1.50", mac := "de:ad:be:ef:00:01", is_active := true }]
    poisoning_active := true }

/-- Degraded initialization (scenario S6): initialized, valid topology, but
`pcap_open_live` failed, so no capture handle. -/
def degradedState : ArpState := { readyState with pcap_handle := none }

/-- `readyState` after a successful start for `192.168.1.50`. -/
def activeTargetState : ArpState :=
  { readyState with
    poisoning_targets := [{ ip := "192.168.1.50", mac := "de:ad:be:ef:00:01", is_active := true }]
    poisoning_active := true }

/-- The enumerated adapter used by the prefix-length scenario S2. -/
def adapterSample : NetworkAdapter :=
  { name := "ETH0", pcap_name := "", description := "", friendly_name := ""
    mac_address := "aa:bb:cc:dd:ee:ff", ip_address := "192.168.1.10"
    subnet_mask := "255.255.255.0", gateway := "192.168.1.1"
    is_active := true, is_wireless := false }

/-- IPv4 addresses of the currently active poisoning records. -/
def activeIps (ts : List PoisoningTarget) : List String :=
  (ts.filter fun t => t.is_active).map fun t => t.ip

/-- Identity (IP, MAC) of every record, active or not. -/
def targetKeys (ts : List PoisoningTarget) : List (String × String) :=
  ts.map fun t => (t.ip, t.mac)

/-! ## Claim C1 -/

/-- Claim C1, counterexample.  In `readyState` (initialized, open handle, no
record for the target, resolved gateway MAC) with the first
`pcap_sendpacket` failing, `startArpPoisoning` hands exactly one frame to
the capture library and returns false: the C++ `&&` short-circuits, so the
gateway-directed spoof is never sent, refuting "both spoofed replies are
sent". -/
theorem c1_counterexample :
    (startArpPoisoning "192.168.1.50" "de:ad:be:ef:00:01" [] [] readyState
        [false, true]).sent.length = 1 ∧
    (startArpPoisoning "192.168.1.50" "de:ad:be:ef:00:01" [] [] readyState
        [false, true]).ok = false ∧
    readyState.is_initialized = true ∧ readyState.pcap_handle = some 0 ∧
    readyState.poisoning_targets = [] := by decide

/-! ## Claim C2 -/

/-- Claim C2 (code bug).  The CIDR loop of `discoverNetworkTopology` counts
leading one-bits of `in_addr.s_addr` without `ntohl`; on the little-endian
Windows targets the mask bytes are therefore reversed.  For the adapter
with mask `255.255.255.0` the produced topology carries `subnet_cidr = 0`
although the number of leading one-bits of the mask in network byte order
is 24 (and `255.255.240.0` gives 0 instead of 20); only the all-zero and
all-one masks agree. -/
theorem c2_endianness_bug :
    (discoverNetworkTopology [adapterSample] "ETH0" fun _ => "").subnet_mask
        = "255.255.255.0" ∧
    (discoverNetworkTopology [adapterSample] "ETH0" fun _ => "").is_valid = true ∧
    (discoverNetworkTopology [adapterSample] "ETH0" fun _ => "").subnet_cidr = 0 ∧
    specPrefixLen [255, 255, 255, 0] = 24 ∧
    computeSubnetCidr [255, 255, 240, 0] = 0 ∧ specPrefixLen [255, 255, 240, 0] = 20 ∧
    computeSubnetCidr [0, 0, 0, 0] = 0 ∧ specPrefixLen [0, 0, 0, 0] = 0 ∧
    computeSubnetCidr [255, 255, 255, 255] = 32 ∧
    specPrefixLen [255, 255, 255, 255] = 32 := by decide

/-! ## Claim C3 -/

/-- Claim C3, counterexample.  `unresolvedGwState` already has an active
record for `192.168.1.50`, yet a second `startArpPoisoning` for that IP is
not free of sends: because the gateway MAC is unresolved it first runs
`refreshGatewayMac`, whose `discoverGatewayMac` misses the (empty) neighbor
table and sends a broadcast ARP request, incrementing `packets_sent` — the
call still returns true and appends nothing. -/
theorem c3_counterexample :
    (startArpPoisoning "192.168.1.50" "de:ad:be:ef:00:01" [] [] unresolvedGwState
        [true]).ok = true ∧
    (startArpPoisoning "192.168.1.50" "de:ad:be:ef:00:01" [] [] unresolvedGwState
        [true]).state.poisoning_targets = unresolvedGwState.poisoning_targets ∧
    unresolvedGwState.perf.packets_sent = 0 ∧
    (startArpPoisoning "192.168.1.50" "de:ad:be:ef:00:01" [] [] unresolvedGwState
        [true]).state.perf.packets_sent = 1 ∧
    (startArpPoisoning "192.168.1.50" "de:ad:be:ef:00:01" [] [] unresolvedGwState
        [true]).sent.length = 1 := by decide

/-! ## Claim C5 -/

/-- Claim C5, counterexample.  Start, stop, then start again for the same
IP (all sends succeeding): the restarted target is appended as a second
record with the same IP instead of reactivating the inactive one — `start`
only short-circuits on an *active* record — so the list holds two records
for `192.168.1.50`, refuting "at most one record per IP" and "reactivates
that record in place". -/
theorem c5_counterexample :
    (startArpPoisoning "192.168.1.50" "de:ad:be:ef:00:01" [] []
      (stopArpPoisoning "192.168.1.50"
        (startArpPoisoning "192.168.1.50" "de:ad:be:ef:00:01" [] [] readyState
          [true, true, true, true, true, true]).state
        (startArpPoisoning "192.168.1.50" "de:ad:be:ef:00:01" [] [] readyState
          [true, true, true, true, true, true]).sends).state
      (stopArpPoisoning "192.168.1.50"
        (startArpPoisoning "192.168.1.50" "de:ad:be:ef:00:01" [] [] readyState
          [true, true, true, true, true, true]).state
        (startArpPoisoning "192.168.1.50" "de:ad:be:ef:00:01" [] [] readyState
          [true, true, true, true, true, true]).sends).sends).state.poisoning_targets =
      [{ ip := "192.168.1.50", mac := "de:ad:be:ef:00:01", is_active := false },
       { ip := "192.168.1.50", mac := "de:ad:be:ef:00:01", is_active := true }] := by
  decide

/-! ## Claim C6 -/

/-- Claim C6 (code bug).  In the degraded state (initialized, valid
topology, no capture handle) `sendArpRequest` does return false and
increment both `packets_sent` and `send_errors`, but its error path is not
clean: after recording the "Pcap handle not available" diagnostic it
reaches the unguarded
`setError("Failed to send ARP request: " + std::string(pcap_geterr(pcap_handle)))`,
querying the capture library through the null handle (undefined behavior,
`ub = true`) and overwriting the NotTransmitted diagnostic — unlike
`sendArpReply`, which guards the same statement with `&& pcap_handle`. -/
theorem c6_null_handle_geterr :
    degradedState.is_initialized = true ∧ degradedState.pcap_handle = none ∧
    (sendArpRequest "192.168.1.5" degradedState []).ok = false ∧
    (sendArpRequest "192.168.1.5" degradedState []).state.perf.packets_sent =
      degradedState.perf.packets_sent + 1 ∧
    (sendArpRequest "192.168.1.5" degradedState []).state.perf.send_errors =
      degradedState.perf.send_errors + 1 ∧
    (sendArpRequest "192.168.1.5" degradedState []).ub = true ∧
    (sendArpRequest "192.168.1.5" degradedState []).state.last_error ≠
      "Pcap handle not available - ensure proper adapter initialization" ∧
    (sendArpReply "192.168.1.1" "192.168.1.5" "11:22:33:44:55:66" "aa:bb:cc:dd:ee:ff"
        degradedState []).ub = false ∧
    (sendArpReply "192.168.1.1" "192.168.1.5" "11:22:33:44:55:66" "aa:bb:cc:dd:ee:ff"
        degradedState []).state.last_error =
      "Pcap handle not available - ensure proper adapter initialization" := by decide

/-! ## Claim C8 -/

/-- Characters compare equal when their code points do. -/
theorem char_eq_of_toNat {a b : Char} (h : a.toNat = b.toNat) : a = b := by
  have := congrArg Char.ofNat h
  rwa [Char.ofNat_toNat, Char.ofNat_toNat] at this

/-- `std::stoi(…, nullptr, 16)` recovers the value of a two-digit lowercase
hex pair. -/
theorem stoi16_hexPair : ∀ x : Fin 16, ∀ y : Fin 16,
    stoi16 [hexDigitChar x, hexDigitChar y] = some ((16 * x.val + y.val : Nat) : Int) := by
  decide

/-- One `stringToMac` group parses the two hex characters `macToString`
printed for a byte back to that byte. -/
theorem parseMacByte_pair (b : Nat) (hb : b < 256) :
    (stoi16 [hexDigitChar (b / 16 % 16), hexDigitChar (b % 16)]).map
      (fun v => (v % 256).toNat) = some b := by
  have h1 : b / 16 < 16 := by omega
  have h2 : b % 16 < 16 := by omega
  have e := stoi16_hexPair ⟨b / 16, h1⟩ ⟨b % 16, h2⟩
  simp only [Fin.val_mk] at e
  have h3 : b / 16 % 16 = b / 16 := Nat.mod_eq_of_lt h1
  rw [h3, e]
  simp only [Option.map_some']
  congr 1
  have h4 : 16 * (b / 16) + b % 16 = b := by omega
  rw [h4]
  omega

/-- Round trip of the MAC codec on any six bytes. -/
theorem mac_roundtrip (m : List Nat) (hm : m.length = 6) (hb : ∀ b ∈ m, b < 256) :
    stringToMac (macToString m) = some m := by
  match m, hm with
  | [b0, b1, b2, b3, b4, b5], _ =>
    have e0 : parseMacByte (macToString [b0, b1, b2, b3, b4, b5]).data 0 = some b0 := by
      simpa [parseMacByte, macToString, macChars, macByteChars] using
        parseMacByte_pair b0 (hb b0 (by simp))
    have e1 : parseMacByte (macToString [b0, b1, b2, b3, b4, b5]).data 1 = some b1 := by
      simpa [parseMacByte, macToString, macChars, macByteChars] using
        parseMacByte_pair b1 (hb b1 (by simp))
    have e2 : parseMacByte (macToString [b0, b1, b2, b3, b4, b5]).data 2 = some b2 := by
      simpa [parseMacByte, macToString, macChars, macByteChars] using
        parseMacByte_pair b2 (hb b2 (by simp))
    have e3 : parseMacByte (macToString [b0, b1, b2, b3, b4, b5]).data 3 = some b3 := by
      simpa [parseMacByte, macToString, macChars, macByteChars] using
        parseMacByte_pair b3 (hb b3 (by simp))
    have e4 : parseMacByte (macToString [b0, b1, b2, b3, b4, b5]).data 4 = some b4 := by
      simpa [parseMacByte, macToString, macChars, macByteChars] using
        parseMacByte_pair b4 (hb b4 (by simp))
    have e5 : parseMacByte (macToString [b0, b1, b2, b3, b4, b5]).data 5 = some b5 := by
      simpa [parseMacByte, macToString, macChars, macByteChars] using
        parseMacByte_pair b5 (hb b5 (by simp))
    have hlen : (macToString [b0, b1, b2, b3, b4, b5]).length = 17 := by
      simp [macToString, macChars, macByteChars, String.length]
    rw [stringToMac, if_pos hlen, e0, e1, e2, e3, e4, e5]

/-- `spanDigits` splits its input and returns only digit characters. -/
theorem spanDigits_split (cs : List Char) :
    (spanDigits cs).1 ++ (spanDigits cs).2 = cs ∧
      ∀ c ∈ (spanDigits cs).1, isDigitC c = true := by
  induction cs with
  | nil => simp [spanDigits]
  | cons c rest ih =>
    by_cases hd : isDigitC c = true
    · simp only [spanDigits, if_pos hd]
      refine ⟨by simpa using ih.1, ?_⟩
      intro x hx
      rcases List.mem_cons.1 hx with h | h
      · exact h ▸ hd
      · exact ih.2 x h
    · simp [spanDigits, hd]

/-- Code-point bounds of a decimal digit character. -/
theorem digit_toNat_bounds {c : Char} (h : isDigitC c = true) :
    48 ≤ c.toNat ∧ c.toNat ≤ 57 := by
  simp only [isDigitC, Bool.and_eq_true, decide_eq_true_eq] at h
  exact h

/-- Code point of the decimal digit characters. -/
theorem decDigitChar_toNat : ∀ k : Fin 10, (decDigitChar k).toNat = 48 + k.val := by decide

/-- Printing the value of a digit character reproduces it. -/
theorem decDigitChar_inv {c : Char} (h : isDigitC c = true) :
    decDigitChar (c.toNat - 48) = c := by
  obtain ⟨h1, h2⟩ := digit_toNat_bounds h
  apply char_eq_of_toNat
  have hk : c.toNat - 48 < 10 := by omega
  have := decDigitChar_toNat ⟨c.toNat - 48, hk⟩
  simp only [Fin.val_mk] at this
  rw [this]
  omega

/-- A digit character other than `'0'` has value at least one. -/
theorem not_zero_char {c : Char} (hd : isDigitC c = true) (h : (c != '0') = true) :
    1 ≤ c.toNat - 48 := by
  obtain ⟨h1, _⟩ := digit_toNat_bounds hd
  rcases Nat.lt_or_ge 48 c.toNat with hlt | hge
  · omega
  · exfalso
    have : c.toNat = 48 := by omega
    have : c = '0' := char_eq_of_toNat (by simpa using this)
    simp [this] at h

/-- An accepted dotted-quad component is the canonical decimal rendering of
its value. -/
theorem octet_canonical (ds : List Char) (hd : ∀ c ∈ ds, isDigitC c = true)
    (hok : octetOk ds = true) :
    digitsVal ds ≤ 255 ∧ decChars (digitsVal ds) = ds := by
  match ds with
  | [] => simp [octetOk] at hok
  | [c] =>
    have hc := hd c (by simp)
    obtain ⟨h1, h2⟩ := digit_toNat_bounds hc
    have hv : digitsVal [c] = c.toNat - 48 := by simp [digitsVal]
    rw [hv]
    refine ⟨by omega, ?_⟩
    rw [decChars, if_pos (by omega)]
    rw [decDigitChar_inv hc]
  | [c1, c2] =>
    have hc1 := hd c1 (by simp)
    have hc2 := hd c2 (by simp)
    obtain ⟨h11, h12⟩ := digit_toNat_bounds hc1
    obtain ⟨h21, h22⟩ := digit_toNat_bounds hc2
    simp only [octetOk, Bool.and_eq_true, decide_eq_true_eq] at hok
    have hnz : 1 ≤ c1.toNat - 48 := not_zero_char hc1 hok.1.1
    have hv : digitsVal [c1, c2] = 10 * (c1.toNat - 48) + (c2.toNat - 48) := by
      simp [digitsVal]
    rw [hv]
    have hge : 10 ≤ 10 * (c1.toNat - 48) + (c2.toNat - 48) := by omega
    have hlt : 10 * (c1.toNat - 48) + (c2.toNat - 48) < 100 := by omega
    refine ⟨by omega, ?_⟩
    rw [decChars, if_neg (by omega), if_pos (by omega)]
    have ed1 : (10 * (c1.toNat - 48) + (c2.toNat - 48)) / 10 = c1.toNat - 48 := by omega
    have ed2 : (10 * (c1.toNat - 48) + (c2.toNat - 48)) % 10 = c2.toNat - 48 := by omega
    rw [ed1, decDigitChar_inv hc1]
    show [c1, decDigitChar (10 * (c1.toNat - 48) + (c2.toNat - 48))] = [c1, c2]
    rw [decDigitChar, ed2]
    rw [show hexDigitChar (c2.toNat - 48) = decDigitChar (c2.toNat - 48) by
      rw [decDigitChar, Nat.mod_eq_of_lt (by omega)]]
    rw [decDigitChar_inv hc2]
  | [c1, c2, c3] =>
    have hc1 := hd c1 (by simp)
    have hc2 := hd c2 (by simp)
    have hc3 := hd c3 (by simp)
    obtain ⟨h11, h12⟩ := digit_toNat_bounds hc1
    obtain ⟨h21, h22⟩ := digit_toNat_bounds hc2
    obtain ⟨h31, h32⟩ := digit_toNat_bounds hc3
    simp only [octetOk, Bool.and_eq_true, decide_eq_true_eq] at hok
    have hnz : 1 ≤ c1.toNat - 48 := not_zero_char hc1 hok.1.1
    have hv : digitsVal [c1, c2, c3] =
        100 * (c1.toNat - 48) + 10 * (c2.toNat - 48) + (c3.toNat - 48) := by
      simp [digitsVal]; omega
    have h255 := hok.2
    rw [hv] at h255 ⊢
    have hge : 100 ≤ 100 * (c1.toNat - 48) + 10 * (c2.toNat - 48) + (c3.toNat - 48) := by
      omega
    refine ⟨h255, ?_⟩
    rw [decChars, if_neg (by omega), if_neg (by omega)]
    have ed1 : (100 * (c1.toNat - 48) + 10 * (c2.toNat - 48) + (c3.toNat - 48)) / 100 =
        c1.toNat - 48 := by omega
    have ed2 : (100 * (c1.toNat - 48) + 10 * (c2.toNat - 48) + (c3.toNat - 48)) / 10 =
        10 * (c1.toNat - 48) + (c2.toNat - 48) := by omega
    have ed3 : (100 * (c1.toNat - 48) + 10 * (c2.toNat - 48) + (c3.toNat - 48)) % 10 =
        c3.toNat - 48 := by omega
    rw [ed1, decDigitChar_inv hc1, ed2]
    show [c1, decDigitChar (10 * (c1.toNat - 48) + (c2.toNat - 48)), _] = [c1, c2, c3]
    have em : (10 * (c1.toNat - 48) + (c2.toNat - 48)) % 10 = c2.toNat - 48 := by omega
    rw [decDigitChar, em]
    rw [show hexDigitChar (c2.toNat - 48) = decDigitChar (c2.toNat - 48) by
      rw [decDigitChar, Nat.mod_eq_of_lt (by omega)]]
    rw [decDigitChar_inv hc2]
    show [c1, c2,
      decDigitChar (100 * (c1.toNat - 48) + 10 * (c2.toNat - 48) + (c3.toNat - 48))] =
        [c1, c2, c3]
    rw [decDigitChar, ed3]
    rw [show hexDigitChar (c3.toNat - 48) = decDigitChar (c3.toNat - 48) by
      rw [decDigitChar, Nat.mod_eq_of_lt (by omega)]]
    rw [decDigitChar_inv hc3]
  | c1 :: c2 :: c3 :: c4 :: rest =>
    exfalso
    simp only [octetOk, Bool.and_eq_true, decide_eq_true_eq] at hok
    have := hok.1.2
    simp [List.length_cons] at this

/-- A parsed component is at most 255 and is consumed as the canonical
decimal rendering of its value. -/
theorem parseOctet_sound {cs : List Char} {v : Nat} {rest : List Char}
    (h : parseOctet cs = some (v, rest)) :
    v ≤ 255 ∧ cs = decChars v ++ rest := by
  rw [parseOctet] at h
  by_cases hok : octetOk (spanDigits cs).1 = true
  · rw [if_pos hok] at h
    obtain ⟨hv, hrest⟩ : digitsVal (spanDigits cs).1 = v ∧ (spanDigits cs).2 = rest := by
      constructor <;> [exact congrArg Prod.fst (Option.some.inj h);
                      exact congrArg Prod.snd (Option.some.inj h)]
    obtain ⟨hsplit, hdig⟩ := spanDigits_split cs
    obtain ⟨h255, hcanon⟩ := octet_canonical (spanDigits cs).1 hdig hok
    rw [hv] at h255 hcanon
    exact ⟨h255, by rw [← hsplit, hcanon, hrest]⟩
  · rw [if_neg hok] at h
    exact absurd h (by simp)

/-- `expectDot` consumes exactly one dot. -/
theorem expectDot_sound {cs r : List Char} (h : expectDot cs = some r) :
    cs = '.' :: r := by
  match cs with
  | [] => simp [expectDot] at h
  | c :: rest =>
    rw [expectDot] at h
    by_cases hc : c = '.'
    · rw [if_pos hc] at h
      rw [hc, Option.some.inj h]
    · rw [if_neg hc] at h
      exact absurd h (by simp)

/-- Round trip of the IPv4 codec: any string the strict parser accepts is
reproduced by `ipToString` on the parsed bytes. -/
theorem ip_roundtrip (s : String) (bytes : List Nat)
    (h : stringToIp s = some bytes) : ipToString bytes = s := by
  rw [stringToIp] at h
  rw [parseIpv4] at h
  cases h1 : parseOctet s.data with
  | none => rw [h1] at h; exact absurd h (by simp)
  | some p1 =>
    obtain ⟨a, r1⟩ := p1
    rw [h1] at h
    simp only at h
    cases hd1 : expectDot r1 with
    | none => rw [hd1] at h; exact absurd h (by simp)
    | some r1' =>
      rw [hd1] at h
      simp only at h
      cases h2 : parseOctet r1' with
      | none => rw [h2] at h; exact absurd h (by simp)
      | some p2 =>
        obtain ⟨b, r2⟩ := p2
        rw [h2] at h
        simp only at h
        cases hd2 : expectDot r2 with
        | none => rw [hd2] at h; exact absurd h (by simp)
        | some r2' =>
          rw [hd2] at h
          simp only at h
          cases h3 : parseOctet r2' with
          | none => rw [h3] at h; exact absurd h (by simp)
          | some p3 =>
            obtain ⟨c, r3⟩ := p3
            rw [h3] at h
            simp only at h
            cases hd3 : expectDot r3 with
            | none => rw [hd3] at h; exact absurd h (by simp)
            | some r3' =>
              rw [hd3] at h
              simp only at h
              cases h4 : parseOctet r3' with
              | none => rw [h4] at h; exact absurd h (by simp)
              | some p4 =>
                obtain ⟨d, r4⟩ := p4
                rw [h4] at h
                simp only at h
                by_cases hr4 : r4 = []
                · rw [if_pos hr4] at h
                  have hbytes : bytes = [a, b, c, d] := (Option.some.inj h).symm
                  obtain ⟨-, e1⟩ := parseOctet_sound h1
                  obtain ⟨-, e2⟩ := parseOctet_sound h2
                  obtain ⟨-, e3⟩ := parseOctet_sound h3
                  obtain ⟨-, e4⟩ := parseOctet_sound h4
                  have ed1 := expectDot_sound hd1
                  have ed2 := expectDot_sound hd2
                  have ed3 := expectDot_sound hd3
                  apply String.ext
                  rw [hbytes]
                  have : (ipToString [a, b, c, d]).data =
                      decChars a ++ '.' :: decChars b ++ '.' :: decChars c ++
                        '.' :: decChars d := by
                    simp [ipToString, String.data_append]
                  rw [this, e1, ed1, e2, ed2, e3, ed3, e4, hr4]
                  simp
                · rw [if_neg hr4] at h
                  exact absurd h (by simp)

/-- Claim C8: round trip of the address codecs.  `stringToMac ∘ macToString`
is the identity on six-byte MACs, and `ipToString` reproduces any dotted
quad accepted by `stringToIp`. -/
theorem c8_codec_roundtrip :
    (∀ m : List Nat, m.length = 6 → (∀ b ∈ m, b < 256) →
      stringToMac (macToString m) = some m) ∧
    (∀ (s : String) (bytes : List Nat), stringToIp s = some bytes →
      ipToString bytes = s) :=
  ⟨mac_roundtrip, ip_roundtrip⟩

/-- Claim C8, witness at the MAC `aa:bb:cc:dd:ee:ff` and the address
`192.168.1.5`. -/
theorem c8_codec_roundtrip_witness :
    stringToMac (macToString [170, 187, 204, 221, 238, 255]) =
        some [170, 187, 204, 221, 238, 255] ∧
    ipToString [192, 168, 1, 5] = "192.168.1.5" :=
  ⟨c8_codec_roundtrip.1 [170, 187, 204, 221, 238, 255] rfl (by decide),
   c8_codec_roundtrip.2 "192.168.1.5" [192, 168, 1, 5] (by decide)⟩

/-- Evaluation of `poisonArpCache` on an initialized state with an open
handle and well-formed addresses: one frame is handed to the library, one
oracle entry is consumed, and the counters are updated with the outcome. -/
theorem poisonArpCache_eval (victim_ip victim_mac spoof_ip our_mac : String)
    (s : ArpState) (sr : List Bool) (h : Nat)
    (vip sip vmac omac : List Nat)
    (hi : s.is_initialized = true) (hh : s.pcap_handle = some h)
    (h1 : stringToIp victim_ip = some vip) (h2 : stringToIp spoof_ip = some sip)
    (h3 : stringToMac victim_mac = some vmac) (h4 : stringToMac our_mac = some omac) :
    poisonArpCache victim_ip victim_mac spoof_ip our_mac s sr =
      if sr.headD false then
        { ok := true
          state := { s with perf := updatePerformanceStats true true s.perf }
          sent := [buildSpoofFrame vmac omac sip vip], sends := sr.tail, ub := false }
      else
        { ok := false
          state := { s with perf := updatePerformanceStats true false s.perf
                            last_error := "Failed to send ARP poisoning packet: " ++ pcapGetErr }
          sent := [buildSpoofFrame vmac omac sip vip], sends := sr.tail, ub := false } := by
  rw [poisonArpCache]
  rw [if_neg (by simp [hi, hh])]
  rw [h1, h2, h3, h4]
  simp only
  by_cases hr : sr.headD false = true
  · rw [if_pos hr, if_pos hr, hr]
  · rw [if_neg hr, if_neg hr]
    have : sr.headD false = false := by
      cases hx : sr.headD false
      · rfl
      · exact absurd hx hr
    rw [this]

/-- Claim C1, amended.  On a call that passes the initialization check,
needs no gateway refresh, and finds no already-active record: a new active
record is appended and the victim-directed spoof is handed to
`pcap_sendpacket` first; the gateway-directed spoof is sent only when the
victim-directed send succeeded (the C++ `&&` short-circuits), and the call
returns true iff both sends succeeded. -/
theorem c1_start_spoof_pair (s : ArpState) (h : Nat) (b1 b2 : Bool) (rest : List Bool)
    (tbl1 tbl2 : List (List Nat × List Nat)) (target_ip target_mac : String)
    (tip tmac gip gmac omac : List Nat)
    (hi : s.is_initialized = true) (hh : s.pcap_handle = some h)
    (hg1 : ¬s.network_info.gateway_mac = "")
    (hg2 : ¬s.network_info.gateway_mac = "00:00:00:00:00:00")
    (hact : ∀ t ∈ s.poisoning_targets, t.ip = target_ip → t.is_active = false)
    (htip : stringToIp target_ip = some tip)
    (htm : stringToMac target_mac = some tmac)
    (hgip : stringToIp s.network_info.gateway_ip = some gip)
    (hgm : stringToMac s.network_info.gateway_mac = some gmac)
    (hom : stringToMac s.network_info.interface_mac = some omac) :
    (startArpPoisoning target_ip target_mac tbl1 tbl2 s (b1 :: b2 :: rest)).ok =
        (b1 && b2) ∧
    (startArpPoisoning target_ip target_mac tbl1 tbl2 s (b1 :: b2 :: rest)).sent =
        (if b1 then [buildSpoofFrame tmac omac gip tip, buildSpoofFrame gmac omac tip gip]
         else [buildSpoofFrame tmac omac gip tip]) ∧
    (startArpPoisoning target_ip target_mac tbl1 tbl2 s
          (b1 :: b2 :: rest)).state.poisoning_targets =
        s.poisoning_targets ++ [{ ip := target_ip, mac := target_mac, is_active := true }] ∧
    (startArpPoisoning target_ip target_mac tbl1 tbl2 s
          (b1 :: b2 :: rest)).sends = (if b1 then rest else b2 :: rest) := by
  obtain ⟨hdl, info, init, perf, lerr, tgts, pact⟩ := s
  simp only at hi hh hg1 hg2 hact htip htm hgip hgm hom
  subst hi hh
  have hany : tgts.any (fun t => t.ip == target_ip && t.is_active) = false := by
    rw [List.any_eq_false]
    intro t ht
    simp only [Bool.and_eq_true, beq_iff_eq, not_and]
    intro hipz
    rw [hact t ht hipz]
    simp
  cases b1 <;> cases b2 <;>
    simp [startArpPoisoning, poisonArpCache, hg1, hg2, hany, htip, htm, hgip, hgm, hom]

/-- Claim C1, amended, witness: scenario S3 on `readyState` with both sends
succeeding — both spoofs emitted in order, victim-directed first, result
true, record appended. -/
theorem c1_start_spoof_pair_witness :
    (startArpPoisoning "192.168.1.50" "de:ad:be:ef:00:01" [] [] readyState
        [true, true]).ok = (true && true) ∧
    (startArpPoisoning "192.168.1.50" "de:ad:be:ef:00:01" [] [] readyState
        [true, true]).sent =
      (if true then
        [buildSpoofFrame [222, 173, 190, 239, 0, 1] [170, 187, 204, 221, 238, 255]
            [192, 168, 1, 1] [192, 168, 1, 50],
         buildSpoofFrame [17, 34, 51, 68, 85, 102] [170, 187, 204, 221, 238, 255]
            [192, 168, 1, 50] [192, 168, 1, 1]]
       else
        [buildSpoofFrame [222, 173, 190, 239, 0, 1] [170, 187, 204, 221, 238, 255]
            [192, 168, 1, 1] [192, 168, 1, 50]]) ∧
    (startArpPoisoning "192.168.1.50" "de:ad:be:ef:00:01" [] [] readyState
        [true, true]).state.poisoning_targets =
      readyState.poisoning_targets ++
        [{ ip := "192.168.1.50", mac := "de:ad:be:ef:00:01", is_active := true }] ∧
    (startArpPoisoning "192.168.1.50" "de:ad:be:ef:00:01" [] [] readyState
        [true, true]).sends = (if true then ([] : List Bool) else [true]) :=
  c1_start_spoof_pair readyState 0 true true [] [] [] "192.168.1.50" "de:ad:be:ef:00:01"
    [192, 168, 1, 50] [222, 173, 190, 239, 0, 1] [192, 168, 1, 1]
    [17, 34, 51, 68, 85, 102] [170, 187, 204, 221, 238, 255]
    rfl rfl (by decide) (by decide) (by decide) rfl rfl rfl rfl rfl

/-! ## Claim C3 -/

/-- Claim C3, amended.  When the record for the IP is already active *and*
the topology's gateway MAC is resolved (non-empty and non-zero, so no
refresh runs), a second `startArpPoisoning` returns true and is a complete
no-op: the state is unchanged (no append, counters untouched) and nothing
is sent. -/
theorem c3_start_idempotent (s : ArpState) (h : Nat) (sr : List Bool)
    (tbl1 tbl2 : List (List Nat × List Nat)) (ip mac : String)
    (hi : s.is_initialized = true) (hh : s.pcap_handle = some h)
    (hg1 : ¬s.network_info.gateway_mac = "")
    (hg2 : ¬s.network_info.gateway_mac = "00:00:00:00:00:00")
    (hact : ∃ t ∈ s.poisoning_targets, t.ip = ip ∧ t.is_active = true) :
    startArpPoisoning ip mac tbl1 tbl2 s sr =
      { ok := true, state := s, sent := [], sends := sr, ub := false } := by
  obtain ⟨hdl, info, init, perf, lerr, tgts, pact⟩ := s
  simp only at hi hh hg1 hg2 hact
  subst hi hh
  obtain ⟨t, ht, hip, hta⟩ := hact
  have hany : tgts.any (fun t => t.ip == ip && t.is_active) = true :=
    List.any_eq_true.2 ⟨t, ht, by simp [hip, hta]⟩
  simp [startArpPoisoning, hg1, hg2, hany]

/-- Claim C3, amended, witness: a second start for the already-active
target of `activeTargetState` changes nothing and sends nothing. -/
theorem c3_start_idempotent_witness :
    startArpPoisoning "192.168.1.50" "de:ad:be:ef:00:01" [] [] activeTargetState [true] =
      { ok := true, state := activeTargetState, sent := [], sends := [true], ub := false } :=
  c3_start_idempotent activeTargetState 0 [true] [] [] "192.168.1.50" "de:ad:be:ef:00:01"
    rfl rfl (by decide) (by decide)
    ⟨{ ip := "192.168.1.50", mac := "de:ad:be:ef:00:01", is_active := true },
      by simp [activeTargetState, readyState], rfl, rfl⟩

/-! ## Claim C4 -/

/-- The deactivation loop finds nothing when no record for the IP is
active. -/
theorem stopLoop_none (ts : List PoisoningTarget) (ip : String)
    (h : ∀ t ∈ ts, t.ip = ip → t.is_active = false) :
    stopLoop ts ip = (ts, none) := by
  induction ts with
  | nil => rfl
  | cons t rest ih =>
    rw [stopLoop]
    have hcond : ¬(t.ip = ip ∧ t.is_active = true) := by
      rintro ⟨h1, h2⟩
      have := h t (by simp) h1
      rw [this] at h2
      exact Bool.false_ne_true h2
    rw [if_neg hcond, ih fun t ht => h t (List.mem_cons_of_mem _ ht)]

/-- Claim C4: `stopArpPoisoning` for an IP with no active record returns
false and is a complete no-op — target list, `poisoning_active`, topology,
counters and `last_error` all unchanged, and no frame is sent.  The
hypothesis `hinv` is the reachability invariant of the controller
(`poisoning_active` implies some active record), which every operation
preserves; without it the final `any`-scan could clear a stale flag. -/
theorem c4_stop_unknown (s : ArpState) (sr : List Bool) (ip : String)
    (hinv : s.poisoning_active = true → ∃ t ∈ s.poisoning_targets, t.is_active = true)
    (hno : ∀ t ∈ s.poisoning_targets, t.ip = ip → t.is_active = false) :
    stopArpPoisoning ip s sr =
      { ok := false, state := s, sent := [], sends := sr, ub := false } := by
  obtain ⟨hdl, info, init, perf, lerr, tgts, pact⟩ := s
  simp only at hinv hno
  rw [stopArpPoisoning]
  rw [stopLoop_none tgts ip hno]
  simp only
  cases pact with
  | true =>
    obtain ⟨t, ht, hta⟩ := hinv rfl
    have hany : tgts.any (fun t => t.is_active) = true :=
      List.any_eq_true.2 ⟨t, ht, by rw [hta]⟩
    simp [hany]
  | false =>
    by_cases hany : tgts.any (fun t => t.is_active) = true
    · simp [hany]
    · simp [hany]

/-- Claim C4, witness: stopping the unknown IP `10.0.0.9` on
`activeTargetState` (which has one active record for another IP) returns
false and leaves the state untouched. -/
theorem c4_stop_unknown_witness :
    stopArpPoisoning "10.0.0.9" activeTargetState [true] =
      { ok := false, state := activeTargetState, sent := [], sends := [true], ub := false } :=
  c4_stop_unknown activeTargetState [true] "10.0.0.9"
    (fun _ => ⟨{ ip := "192.168.1.50", mac := "de:ad:be:ef:00:01", is_active := true },
      by simp [activeTargetState, readyState], rfl⟩) (by decide)

/-! ## Claim C7 -/

/-- Claim C7: with topology local IP `192.168.1.10` and interface MAC
`aa:bb:cc:dd:ee:ff`, `sendArpRequest "192.168.1.5"` hands the capture
library exactly the 42-byte frame of scenario S1: bytes 0–5 broadcast
`ff`, 6–11 the local MAC, 12–13 `08 06`, op bytes (20–21) `00 01`, sender
IP (28–31) `c0 a8 01 0a`, target MAC (32–37) zeroed, target IP (38–41)
`c0 a8 01 05`. -/
theorem c7_request_frame (s : ArpState) (sr : List Bool) (h : Nat)
    (hi : s.is_initialized = true)
    (hip : s.network_info.local_ip = "192.168.1.10")
    (hmac : s.network_info.interface_mac = "aa:bb:cc:dd:ee:ff")
    (hh : s.pcap_handle = some h) :
    (sendArpRequest "192.168.1.5" s sr).sent =
      [buildArpRequestFrame [170, 187, 204, 221, 238, 255] [192, 168, 1, 10]
        [192, 168, 1, 5]] ∧
    (buildArpRequestFrame [170, 187, 204, 221, 238, 255] [192, 168, 1, 10]
        [192, 168, 1, 5]).length = 42 ∧
    (buildArpRequestFrame [170, 187, 204, 221, 238, 255] [192, 168, 1, 10]
        [192, 168, 1, 5]).take 6 = [255, 255, 255, 255, 255, 255] ∧
    ((buildArpRequestFrame [170, 187, 204, 221, 238, 255] [192, 168, 1, 10]
        [192, 168, 1, 5]).drop 6).take 6 = [170, 187, 204, 221, 238, 255] ∧
    ((buildArpRequestFrame [170, 187, 204, 221, 238, 255] [192, 168, 1, 10]
        [192, 168, 1, 5]).drop 12).take 2 = [8, 6] ∧
    ((buildArpRequestFrame [170, 187, 204, 221, 238, 255] [192, 168, 1, 10]
        [192, 168, 1, 5]).drop 20).take 2 = [0, 1] ∧
    ((buildArpRequestFrame [170, 187, 204, 221, 238, 255] [192, 168, 1, 10]
        [192, 168, 1, 5]).drop 28).take 4 = [192, 168, 1, 10] ∧
    ((buildArpRequestFrame [170, 187, 204, 221, 238, 255] [192, 168, 1, 10]
        [192, 168, 1, 5]).drop 32).take 6 = [0, 0, 0, 0, 0, 0] ∧
    ((buildArpRequestFrame [170, 187, 204, 221, 238, 255] [192, 168, 1, 10]
        [192, 168, 1, 5]).drop 38).take 4 = [192, 168, 1, 5] := by
  obtain ⟨hdl, info, init, perf, lerr, tgts, pact⟩ := s
  simp only at hi hip hmac hh
  subst hi hh
  refine ⟨?_, by decide, by decide, by decide, by decide, by decide, by decide,
    by decide, by decide⟩
  rw [sendArpRequest]
  rw [if_neg (by simp)]
  simp only [hip, hmac]
  rw [show stringToIp "192.168.1.5" = some [192, 168, 1, 5] from rfl]
  rw [show stringToIp "192.168.1.10" = some [192, 168, 1, 10] from rfl]
  rw [show stringToMac "aa:bb:cc:dd:ee:ff" = some [170, 187, 204, 221, 238, 255] from rfl]
  simp only
  cases hr : sr.headD false <;> simp [hr]

/-- Claim C7, witness at `readyState`. -/
theorem c7_request_frame_witness :
    (sendArpRequest "192.168.1.5" readyState [true]).sent =
      [buildArpRequestFrame [170, 187, 204, 221, 238, 255] [192, 168, 1, 10]
        [192, 168, 1, 5]] ∧
    (buildArpRequestFrame [170, 187, 204, 221, 238, 255] [192, 168, 1, 10]
        [192, 168, 1, 5]).length = 42 ∧
    (buildArpRequestFrame [170, 187, 204, 221, 238, 255] [192, 168, 1, 10]
        [192, 168, 1, 5]).take 6 = [255, 255, 255, 255, 255, 255] ∧
    ((buildArpRequestFrame [170, 187, 204, 221, 238, 255] [192, 168, 1, 10]
        [192, 168, 1, 5]).drop 6).take 6 = [170, 187, 204, 221, 238, 255] ∧
    ((buildArpRequestFrame [170, 187, 204, 221, 238, 255] [192, 168, 1, 10]
        [192, 168, 1, 5]).drop 12).take 2 = [8, 6] ∧
    ((buildArpRequestFrame [170, 187, 204, 221, 238, 255] [192, 168, 1, 10]
        [192, 168, 1, 5]).drop 20).take 2 = [0, 1] ∧
    ((buildArpRequestFrame [170, 187, 204, 221, 238, 255] [192, 168, 1, 10]
        [192, 168, 1, 5]).drop 28).take 4 = [192, 168, 1, 10] ∧
    ((buildArpRequestFrame [170, 187, 204, 221, 238, 255] [192, 168, 1, 10]
        [192, 168, 1, 5]).drop 32).take 6 = [0, 0, 0, 0, 0, 0] ∧
    ((buildArpRequestFrame [170, 187, 204, 221, 238, 255] [192, 168, 1, 10]
        [192, 168, 1, 5]).drop 38).take 4 = [192, 168, 1, 5] :=
  c7_request_frame readyState [true] 0 rfl rfl rfl rfl

/-! ## Claim C9 -/

/-- Claim C9: on an initialized state, a malformed address string makes
`sendArpRequest`, `sendArpReply` and `poisonArpCache` fail synchronously —
result false, nothing handed to `pcap_sendpacket`, all performance counters
(the whole `perf` record) unchanged, and no oracle entry consumed. -/
theorem c9_invalid_args (s : ArpState) (sr : List Bool)
    (ip1 ip2 mac1 mac2 : String)
    (hi : s.is_initialized = true) :
    (stringToIp ip1 = none →
      (sendArpRequest ip1 s sr).ok = false ∧ (sendArpRequest ip1 s sr).sent = [] ∧
      (sendArpRequest ip1 s sr).state.perf = s.perf ∧
      (sendArpRequest ip1 s sr).sends = sr) ∧
    ((stringToIp ip1 = none ∨ stringToIp ip2 = none ∨
        stringToMac mac1 = none ∨ stringToMac mac2 = none) →
      (sendArpReply ip1 ip2 mac1 mac2 s sr).ok = false ∧
      (sendArpReply ip1 ip2 mac1 mac2 s sr).sent = [] ∧
      (sendArpReply ip1 ip2 mac1 mac2 s sr).state.perf = s.perf ∧
      (sendArpReply ip1 ip2 mac1 mac2 s sr).sends = sr) ∧
    ((stringToIp ip1 = none ∨ stringToIp ip2 = none ∨
        stringToMac mac1 = none ∨ stringToMac mac2 = none) →
      (poisonArpCache ip1 mac1 ip2 mac2 s sr).ok = false ∧
      (poisonArpCache ip1 mac1 ip2 mac2 s sr).sent = [] ∧
      (poisonArpCache ip1 mac1 ip2 mac2 s sr).state.perf = s.perf ∧
      (poisonArpCache ip1 mac1 ip2 mac2 s sr).sends = sr) := by
  obtain ⟨hdl, info, init, perf, lerr, tgts, pact⟩ := s
  simp only at hi
  subst hi
  refine ⟨?_, ?_, ?_⟩
  · intro h1
    simp [sendArpRequest, h1]
  · intro hbad
    rw [sendArpReply, if_neg (by simp)]
    cases h1 : stringToIp ip1 with
    | none => simp
    | some v1 =>
      simp only
      cases h2 : stringToIp ip2 with
      | none => simp
      | some v2 =>
        simp only
        cases h3 : stringToMac mac1 with
        | none => simp
        | some v3 =>
          simp only
          cases h4 : stringToMac mac2 with
          | none => simp
          | some v4 =>
            rw [h1, h2, h3, h4] at hbad
            rcases hbad with h | h | h | h <;> exact absurd h (by simp)
  · intro hbad
    rw [poisonArpCache]
    by_cases hc : ((true : Bool) = false ∨ hdl = none)
    · rw [if_pos hc]
      simp
    · rw [if_neg hc]
      cases h1 : stringToIp ip1 with
      | none => simp
      | some v1 =>
        simp only
        cases h2 : stringToIp ip2 with
        | none => simp
        | some v2 =>
          simp only
          cases h3 : stringToMac mac1 with
          | none => simp
          | some v3 =>
            simp only
            cases h4 : stringToMac mac2 with
            | none => simp
            | some v4 =>
              rw [h1, h2, h3, h4] at hbad
              rcases hbad with h | h | h | h <;> exact absurd h (by simp)

/-- Claim C9, witness: the out-of-range quad `999.1.2.3` and the non-hex
MAC `zz:bb:cc:dd:ee:ff` on `readyState`. -/
theorem c9_invalid_args_witness :
    ((sendArpRequest "999.1.2.3" readyState [true]).ok = false ∧
      (sendArpRequest "999.1.2.3" readyState [true]).sent = [] ∧
      (sendArpRequest "999.1.2.3" readyState [true]).state.perf = readyState.perf ∧
      (sendArpRequest "999.1.2.3" readyState [true]).sends = [true]) ∧
    ((sendArpReply "999.1.2.3" "192.168.1.1" "zz:bb:cc:dd:ee:ff" "aa:bb:cc:dd:ee:ff"
          readyState [true]).ok = false ∧
      (sendArpReply "999.1.2.3" "192.168.1.1" "zz:bb:cc:dd:ee:ff" "aa:bb:cc:dd:ee:ff"
          readyState [true]).sent = [] ∧
      (sendArpReply "999.1.2.3" "192.168.1.1" "zz:bb:cc:dd:ee:ff" "aa:bb:cc:dd:ee:ff"
          readyState [true]).state.perf = readyState.perf ∧
      (sendArpReply "999.1.2.3" "192.168.1.1" "zz:bb:cc:dd:ee:ff" "aa:bb:cc:dd:ee:ff"
          readyState [true]).sends = [true]) ∧
    ((poisonArpCache "999.1.2.3" "zz:bb:cc:dd:ee:ff" "192.168.1.1" "aa:bb:cc:dd:ee:ff"
          readyState [true]).ok = false ∧
      (poisonArpCache "999.1.2.3" "zz:bb:cc:dd:ee:ff" "192.168.1.1" "aa:bb:cc:dd:ee:ff"
          readyState [true]).sent = [] ∧
      (poisonArpCache "999.1.2.3" "zz:bb:cc:dd:ee:ff" "192.168.1.1" "aa:bb:cc:dd:ee:ff"
          readyState [true]).state.perf = readyState.perf ∧
      (poisonArpCache "999.1.2.3" "zz:bb:cc:dd:ee:ff" "192.168.1.1" "aa:bb:cc:dd:ee:ff"
          readyState [true]).sends = [true]) :=
  ⟨(c9_invalid_args readyState [true] "999.1.2.3" "192.168.1.1" "zz:bb:cc:dd:ee:ff"
      "aa:bb:cc:dd:ee:ff" rfl).1 (by decide),
   (c9_invalid_args readyState [true] "999.1.2.3" "192.168.1.1" "zz:bb:cc:dd:ee:ff"
      "aa:bb:cc:dd:ee:ff" rfl).2.1 (Or.inl (by decide)),
   (c9_invalid_args readyState [true] "999.1.2.3" "192.168.1.1" "zz:bb:cc:dd:ee:ff"
      "aa:bb:cc:dd:ee:ff" rfl).2.2 (Or.inl (by decide))⟩

/-! ## Claim C5 -/

/-- `poisonArpCache` never touches the poisoning-target list. -/
theorem poisonArpCache_targets (a b c d : String) (s : ArpState) (sr : List Bool) :
    (poisonArpCache a b c d s sr).state.poisoning_targets = s.poisoning_targets := by
  rw [poisonArpCache]
  split
  · rfl
  · cases h1 : stringToIp a
    · rfl
    · simp only
      cases h2 : stringToIp c
      · rfl
      · simp only
        cases h3 : stringToMac b
        · rfl
        · simp only
          cases h4 : stringToMac d
          · rfl
          · simp only
            split <;> rfl

/-- `sendArpRequest` never touches the poisoning-target list. -/
theorem sendArpRequest_targets (a : String) (s : ArpState) (sr : List Bool) :
    (sendArpRequest a s sr).state.poisoning_targets = s.poisoning_targets := by
  rw [sendArpRequest]
  split
  · rfl
  · cases h1 : stringToIp a
    · rfl
    · simp only
      cases h2 : stringToIp s.network_info.local_ip
      · rfl
      · cases h3 : stringToMac s.network_info.interface_mac
        · simp only
        · simp only
          cases h4 : s.pcap_handle
          · rfl
          · simp only
            split <;> rfl

/-- `discoverGatewayMac` never touches the poisoning-target list. -/
theorem discoverGatewayMac_targets (g : String) (tbl1 tbl2 : List (List Nat × List Nat))
    (s : ArpState) (sr : List Bool) :
    (discoverGatewayMac g tbl1 tbl2 s sr).2.1.poisoning_targets = s.poisoning_targets := by
  rw [discoverGatewayMac]
  cases h1 : stringToIp g
  · rfl
  · simp only
    cases h2 : arpLookup tbl1 _
    · simp only
      cases h3 : s.pcap_handle
      · rfl
      · simp only
        split
        · split <;> simp [sendArpRequest_targets]
        · simp [sendArpRequest_targets]
    · rfl

/-- `refreshGatewayMac` never touches the poisoning-target list. -/
theorem refreshGatewayMac_targets (tbl1 tbl2 : List (List Nat × List Nat))
    (s : ArpState) (sr : List Bool) :
    (refreshGatewayMac tbl1 tbl2 s sr).state.poisoning_targets = s.poisoning_targets := by
  rw [refreshGatewayMac]
  split
  · rfl
  · dsimp only
    split <;> simp [discoverGatewayMac_targets]

/-- The deactivation loop preserves every record's identity. -/
theorem stopLoop_keys (ts : List PoisoningTarget) (ip : String) :
    targetKeys (stopLoop ts ip).1 = targetKeys ts := by
  induction ts with
  | nil => rfl
  | cons t rest ih =>
    rw [stopLoop]
    split
    · simp [targetKeys]
    · simp only [targetKeys, List.map_cons]
      simpa [targetKeys] using ih

/-- The deactivation loop only shrinks the set of active records. -/
theorem stopLoop_active_sublist (ts : List PoisoningTarget) (ip : String) :
    List.Sublist (activeIps (stopLoop ts ip).1) (activeIps ts) := by
  induction ts with
  | nil => exact List.Sublist.refl _
  | cons t rest ih =>
    rw [stopLoop]
    split
    · by_cases ha : t.is_active = true
      · simp only [activeIps, List.filter_cons]
        simp [ha]
      · simp only [activeIps, List.filter_cons]
        simp [ha]
    · by_cases ha : t.is_active = true
      · simp only [activeIps, List.filter_cons, ha]
        simpa [activeIps, ha] using List.Sublist.cons₂ t.ip (by simpa [activeIps] using ih)
      · simp only [activeIps, List.filter_cons]
        simp only [ha]
        simpa [activeIps, ha] using ih

/-- `stopArpPoisoning` changes the target list exactly as the deactivation
loop does. -/
theorem stop_targets (ip : String) (s : ArpState) (sr : List Bool) :
    (stopArpPoisoning ip s sr).state.poisoning_targets =
      (stopLoop s.poisoning_targets ip).1 := by
  rw [stopArpPoisoning]
  rcases hsl : stopLoop s.poisoning_targets ip with ⟨ts, found⟩
  cases found with
  | none =>
    simp only
    split <;> rfl
  | some t =>
    simp only
    split
    · simp [poisonArpCache_targets]
    · simp [poisonArpCache_targets]

/-- `startArpPoisoning` either leaves the target list alone or — exactly
when no record for the IP is active — appends one new active record. -/
theorem start_targets_cases (ip mac : String) (tbl1 tbl2 : List (List Nat × List Nat))
    (s : ArpState) (sr : List Bool) :
    (startArpPoisoning ip mac tbl1 tbl2 s sr).state.poisoning_targets =
        s.poisoning_targets ∨
    ((startArpPoisoning ip mac tbl1 tbl2 s sr).state.poisoning_targets =
        s.poisoning_targets ++ [{ ip := ip, mac := mac, is_active := true }] ∧
      (s.poisoning_targets.any fun t => t.ip == ip && t.is_active) = false) := by
  rw [startArpPoisoning]
  split
  · left; rfl
  · dsimp only
    have h0 : (if s.network_info.gateway_mac = "" ∨
          s.network_info.gateway_mac = "00:00:00:00:00:00" then
        refreshGatewayMac tbl1 tbl2 s sr
      else { ok := true, state := s, sent := [], sends := sr, ub := false
             : OpResult }).state.poisoning_targets = s.poisoning_targets := by
      split
      · exact refreshGatewayMac_targets _ _ _ _
      · rfl
    rw [h0]
    split
    · left
      exact h0
    · right
      have hanyf : (s.poisoning_targets.any fun t => t.ip == ip && t.is_active) = false := by
        have hx := ‹¬(s.poisoning_targets.any fun t => t.ip == ip && t.is_active) = true›
        revert hx
        cases s.poisoning_targets.any fun t => t.ip == ip && t.is_active <;> simp
      refine ⟨?_, hanyf⟩
      split <;> (try split) <;> simp [poisonArpCache_targets]

/-- Membership in the active-IP list. -/
theorem mem_activeIps {ts : List PoisoningTarget} {x : String} :
    x ∈ activeIps ts ↔ ∃ t ∈ ts, t.is_active = true ∧ t.ip = x := by
  simp only [activeIps, List.mem_map, List.mem_filter]
  constructor
  · rintro ⟨t, ⟨ht, ha⟩, hip⟩
    exact ⟨t, ht, ha, hip⟩
  · rintro ⟨t, ht, ha, hip⟩
    exact ⟨t, ⟨ht, ha⟩, hip⟩

/-- On an initialized state with a handle, a start for an IP all of whose
records are inactive appends a fresh record (the counterexample's
duplicate-append, stated positively). -/
theorem start_appends_inactive (ip mac : String) (tbl1 tbl2 : List (List Nat × List Nat))
    (s : ArpState) (sr : List Bool)
    (hi : s.is_initialized = true) (hh : ¬s.pcap_handle = none)
    (hno : ∀ t ∈ s.poisoning_targets, t.ip = ip → t.is_active = false) :
    (startArpPoisoning ip mac tbl1 tbl2 s sr).state.poisoning_targets =
      s.poisoning_targets ++ [{ ip := ip, mac := mac, is_active := true }] := by
  rw [startArpPoisoning]
  split
  · rename_i hcond
    rcases hcond with h | h
    · rw [hi] at h
      exact absurd h (by simp)
    · exact absurd h hh
  · dsimp only
    have h0 : (if s.network_info.gateway_mac = "" ∨
          s.network_info.gateway_mac = "00:00:00:00:00:00" then
        refreshGatewayMac tbl1 tbl2 s sr
      else { ok := true, state := s, sent := [], sends := sr, ub := false
             : OpResult }).state.poisoning_targets = s.poisoning_targets := by
      split
      · exact refreshGatewayMac_targets _ _ _ _
      · rfl
    rw [h0]
    split
    · rename_i hany
      exfalso
      obtain ⟨t, ht, hta⟩ := List.any_eq_true.1 hany
      simp only [Bool.and_eq_true, beq_iff_eq] at hta
      have := hno t ht hta.1
      rw [this] at hta
      exact Bool.false_ne_true hta.2
    · split <;> (try split) <;> simp [poisonArpCache_targets]

/-- Claim C5, amended.  Records are never deleted and keep their identity
(`targetKeys` is only ever extended by `start` and preserved by `stop`),
and at most one *active* record exists per IP; but a start for an IP whose
records are all inactive appends a fresh record with the same IP instead of
reactivating in place, so inactive duplicates accumulate. -/
theorem c5_target_list_invariant (s : ArpState) (sr : List Bool)
    (tbl1 tbl2 : List (List Nat × List Nat)) (ip mac : String) :
    (∃ app, targetKeys (startArpPoisoning ip mac tbl1 tbl2 s sr).state.poisoning_targets =
        targetKeys s.poisoning_targets ++ app) ∧
    targetKeys (stopArpPoisoning ip s sr).state.poisoning_targets =
        targetKeys s.poisoning_targets ∧
    ((activeIps s.poisoning_targets).Nodup →
      (activeIps (startArpPoisoning ip mac tbl1 tbl2 s sr).state.poisoning_targets).Nodup) ∧
    ((activeIps s.poisoning_targets).Nodup →
      (activeIps (stopArpPoisoning ip s sr).state.poisoning_targets).Nodup) ∧
    (s.is_initialized = true → ¬s.pcap_handle = none →
      (∀ t ∈ s.poisoning_targets, t.ip = ip → t.is_active = false) →
      (startArpPoisoning ip mac tbl1 tbl2 s sr).state.poisoning_targets =
        s.poisoning_targets ++ [{ ip := ip, mac := mac, is_active := true }]) := by
  refine ⟨?_, ?_, ?_, ?_, ?_⟩
  · rcases start_targets_cases ip mac tbl1 tbl2 s sr with h | ⟨h, -⟩
    · exact ⟨[], by rw [h, List.append_nil]⟩
    · exact ⟨[(ip, mac)], by rw [h]; simp [targetKeys]⟩
  · rw [stop_targets, stopLoop_keys]
  · intro hnd
    rcases start_targets_cases ip mac tbl1 tbl2 s sr with h | ⟨h, hany⟩
    · rwa [h]
    · rw [h]
      have hip_not : ip ∉ activeIps s.poisoning_targets := by
        rw [mem_activeIps]
        rintro ⟨t, ht, hta, hip⟩
        have := List.any_eq_false.1 hany t ht
        simp [hip, hta] at this
      have hsplit : activeIps (s.poisoning_targets ++
          [{ ip := ip, mac := mac, is_active := true }]) =
          activeIps s.poisoning_targets ++ [ip] := by
        simp [activeIps, List.filter_append, List.map_append]
      rw [hsplit]
      simp [List.nodup_append, hnd, hip_not]
  · intro hnd
    rw [stop_targets]
    exact hnd.sublist (stopLoop_active_sublist _ _)
  · intro hi hh hno
    exact start_appends_inactive ip mac tbl1 tbl2 s sr hi hh hno

/-- Claim C5, amended, witness at `readyState` (inner hypotheses
discharged by computation). -/
theorem c5_target_list_invariant_witness :
    (∃ app, targetKeys (startArpPoisoning "192.168.1.50" "de:ad:be:ef:00:01" [] []
          readyState [true, true]).state.poisoning_targets =
        targetKeys readyState.poisoning_targets ++ app) ∧
    targetKeys (stopArpPoisoning "192.168.1.50" readyState
        [true, true]).state.poisoning_targets =
      targetKeys readyState.poisoning_targets ∧
    (activeIps (startArpPoisoning "192.168.1.50" "de:ad:be:ef:00:01" [] [] readyState
        [true, true]).state.poisoning_targets).Nodup ∧
    (activeIps (stopArpPoisoning "192.168.1.50" readyState
        [true, true]).state.poisoning_targets).Nodup ∧
    (startArpPoisoning "192.168.1.50" "de:ad:be:ef:00:01" [] [] readyState
        [true, true]).state.poisoning_targets =
      readyState.poisoning_targets ++
        [{ ip := "192.168.1.50", mac := "de:ad:be:ef:00:01", is_active := true }] :=
  ⟨(c5_target_list_invariant readyState [true, true] [] [] "192.168.1.50"
      "de:ad:be:ef:00:01").1,
   (c5_target_list_invariant readyState [true, true] [] [] "192.168.1.50"
      "de:ad:be:ef:00:01").2.1,
   (c5_target_list_invariant readyState [true, true] [] [] "192.168.1.50"
      "de:ad:be:ef:00:01").2.2.1 (by decide),
   (c5_target_list_invariant readyState [true, true] [] [] "192.168.1.50"
      "de:ad:be:ef:00:01").2.2.2.1 (by decide),
   (c5_target_list_invariant readyState [true, true] [] [] "192.168.1.50"
      "de:ad:be:ef:00:01").2.2.2.2 rfl (by decide) (by decide)⟩

/-! ## Claim C10 -/

/-- `runLog` distributes over trace concatenation. -/
theorem runLog_append (a b : List HEvent) (h : Option Nat) :
    runLog (a ++ b) h =
      match runLog a h with
      | some h1 => runLog b h1
      | none => none := by
  induction a generalizing h with
  | nil => simp [runLog]
  | cons e rest ih =>
    cases e with
    | opened x =>
      cases h with
      | none => simpa [runLog] using ih (some x)
      | some y => simp [runLog]
    | closed x =>
      cases h with
      | none => simp [runLog]
      | some y =>
        by_cases hxy : x = y
        · simpa [runLog, hxy] using ih none
        · simp [runLog, hxy]

/-- Invariant tying a manager state to its handle-event trace: the trace is
accepted by the single-handle automaton and ends holding exactly the
manager's current handle, and an uninitialized manager holds no handle. -/
def HandleInv (s : ArpState) (log : List HEvent) : Prop :=
  runLog log none = some s.pcap_handle ∧ (s.is_initialized = false → s.pcap_handle = none)

/-- `cleanup` preserves the handle invariant (closing the held handle at
most once). -/
theorem cleanupT_inv {s : ArpState} {log : List HEvent} (h : HandleInv s log) :
    HandleInv (cleanupT s).1 (log ++ (cleanupT s).2) := by
  obtain ⟨h1, h2⟩ := h
  rw [cleanupT]
  cases hh : s.pcap_handle with
  | none =>
    refine ⟨?_, fun _ => rfl⟩
    simpa [hh] using h1
  | some x =>
    refine ⟨?_, fun _ => rfl⟩
    rw [runLog_append, h1]
    simp [hh, runLog]

/-- `initialize` preserves the handle invariant: the entry cleanup leaves no
handle, the open happens with no handle held, and the abort path closes the
just-opened handle exactly once. -/
theorem initArp_inv {s : ArpState} {log : List HEvent} (env : InitEnv)
    (h : HandleInv s log) :
    HandleInv (initArp env s).2.1 (log ++ (initArp env s).2.2) := by
  rw [initArp]
  have hafter : HandleInv (if s.is_initialized = true then cleanupT s else (s, [])).1
      (log ++ (if s.is_initialized = true then cleanupT s else (s, [])).2) ∧
      (if s.is_initialized = true then cleanupT s else (s, [])).1.pcap_handle = none := by
    cases hi : s.is_initialized with
    | true =>
      simp only [if_pos rfl]
      refine ⟨cleanupT_inv h, ?_⟩
      rw [cleanupT]
      cases hh : s.pcap_handle <;> rfl
    | false =>
      simp only [Bool.false_eq_true, if_false]
      exact ⟨⟨by simpa using h.1, h.2⟩, h.2 hi⟩
  set p0 := if s.is_initialized = true then cleanupT s else (s, []) with hp0
  obtain ⟨⟨ha1, ha2⟩, hnone⟩ := hafter
  rw [hnone] at ha1
  split
  · exact ⟨by simpa [hnone] using ha1, fun _ => hnone⟩
  · dsimp only
    cases ho : env.open_result with
    | none =>
      simp only
      have e0 : log ++ (p0.2 ++ ([] : List HEvent)) = log ++ p0.2 := by simp
      split
      · exact ⟨by simpa using ha1, by intro hx; exact absurd hx (by simp)⟩
      · split
        · exact ⟨by simpa using ha1, by intro hx; exact absurd hx (by simp)⟩
        · rw [cleanupT]
          simp only [hnone]
          refine ⟨?_, fun _ => rfl⟩
          rw [e0, ha1]
      | some x =>
      simp only
      have e1 : log ++ (p0.2 ++ [HEvent.opened x]) =
          (log ++ p0.2) ++ [HEvent.opened x] := by simp
      have hopen : runLog ((log ++ p0.2) ++ [HEvent.opened x]) none = some (some x) := by
        rw [runLog_append, ha1]
        simp [runLog]
      split
      · exact ⟨by rw [e1, hopen], by intro hx; exact absurd hx (by simp)⟩
      · split
        · exact ⟨by rw [e1, hopen], by intro hx; exact absurd hx (by simp)⟩
        · rw [cleanupT]
          simp only
          refine ⟨?_, fun _ => rfl⟩
          have e2 : log ++ (p0.2 ++ [HEvent.opened x] ++ [HEvent.closed x]) =
              ((log ++ p0.2) ++ [HEvent.opened x]) ++ [HEvent.closed x] := by simp
          rw [e2, runLog_append, hopen]
          simp [runLog]

/-- The handle invariant holds after any initialize/cleanup sequence. -/
theorem runInitOps_inv (ops : List InitOp) (s : ArpState) (log : List HEvent)
    (h : HandleInv s log) :
    HandleInv (runInitOps ops (s, log)).1 (runInitOps ops (s, log)).2 := by
  induction ops generalizing s log with
  | nil => exact h
  | cons op rest ih =>
    cases op with
    | doInit env => exact ih _ _ (initArp_inv env h)
    | doCleanup => exact ih _ _ (cleanupT_inv h)

/-- Claim C10: along every sequence of `initialize`/`cleanup` calls from a
fresh manager, the capture-handle trace is accepted by the single-handle
automaton — at most one handle open at any time, a close only of the
currently open handle (so no handle is closed twice) — and it ends holding
exactly the manager's current handle; moreover `initialize` on an
already-initialized manager first closes the previously open handle,
before any open. -/
theorem c10_handle_lifecycle :
    (∀ ops : List InitOp,
      runLog (runInitOps ops (arpInit, [])).2 none =
        some (runInitOps ops (arpInit, [])).1.pcap_handle) ∧
    (∀ (env : InitEnv) (s : ArpState) (h : Nat),
      s.is_initialized = true → s.pcap_handle = some h →
      ∃ rest, (initArp env s).2.2 = HEvent.closed h :: rest) := by
  constructor
  · intro ops
    exact (runInitOps_inv ops arpInit [] ⟨rfl, fun _ => rfl⟩).1
  · intro env s h hi hh
    rw [initArp]
    rw [if_pos hi, cleanupT]
    rw [hh]
    simp only
    split
    · exact ⟨[], rfl⟩
    · cases ho : env.open_result with
      | none =>
        simp only
        split
        · exact ⟨[], rfl⟩
        · split
          · exact ⟨[], rfl⟩
          · rw [cleanupT]
            simp only
            exact ⟨[], rfl⟩
      | some x =>
        simp only
        split
        · exact ⟨[HEvent.opened x], rfl⟩
        · split
          · exact ⟨[HEvent.opened x], rfl⟩
          · rw [cleanupT]
            simp only
            exact ⟨[HEvent.opened x, HEvent.closed x], rfl⟩

/-- Claim C10, witness: two successive initializations followed by a
cleanup produce the well-bracketed trace, and an initialize on `readyState`
begins by closing handle 0. -/
theorem c10_handle_lifecycle_witness :
    runLog (runInitOps
        [InitOp.doInit ⟨true, some 7, topoSample, emptyNetworkInfo⟩,
         InitOp.doInit ⟨true, some 8, topoSample, emptyNetworkInfo⟩,
         InitOp.doCleanup] (arpInit, [])).2 none =
      some (runInitOps
        [InitOp.doInit ⟨true, some 7, topoSample, emptyNetworkInfo⟩,
         InitOp.doInit ⟨true, some 8, topoSample, emptyNetworkInfo⟩,
         InitOp.doCleanup] (arpInit, [])).1.pcap_handle ∧
    ∃ rest, (initArp ⟨true, some 9, topoSample, emptyNetworkInfo⟩
        readyState).2.2 = HEvent.closed 0 :: rest :=
  ⟨c10_handle_lifecycle.1 _,
   c10_handle_lifecycle.2 ⟨true, some 9, topoSample, emptyNetworkInfo⟩ readyState 0 rfl rfl⟩
